import Mathlib

/-!
Shallow embedding of the pact-js-core argument mapper
(`src/verifier/argumentMapper/arguments.ts`) and of the mock-service
process lifecycle (`server.js`), together with theorems settling the
frozen claims about the natural-language specification.

Modelling conventions:
* JavaScript truthiness on optional strings (`undefined` and `""` are
  falsy) is made explicit via `truthyS` and the `a || b` chains via
  `orStr` / `jsOrOpt`.
* External collaborators (Node's `url.parse`, WHATWG `new URL`,
  `fs.lstatSync`, the process environment) are oracles collected in a
  `World` record; a `none` oracle answer models a thrown exception.
* The native FFI engine is opaque: each `ffi.*` invocation is recorded
  as an `FfiCall` value, in invocation order.
-/

namespace PactCore

/-- Outcome tag of one descriptor, from `FnValidationStatus` in
`src/verifier/argumentMapper/types.ts`. -/
inductive FnValidationStatus where
  | SUCCESS
  | FAIL
  | IGNORE
deriving DecidableEq, Repr

/-- The nine ordered logical setup calls: the keys of
`orderOfExecution` (type `RequiredFfiVerificationFunctions`). -/
inductive RequiredFfiFn where
  | pactffiVerifierSetProviderInfo
  | pactffiVerifierSetFilterInfo
  | pactffiVerifierSetProviderState
  | pactffiVerifierSetVerificationOptions
  | pactffiVerifierSetPublishOptions
  | pactffiVerifierSetConsumerFilters
  | pactffiVerifierAddCustomHeader
  | pactffiVerifierAddDirectorySource
  | pactffiVerifierBrokerSourceWithSelectors
deriving DecidableEq, Fintype, Repr

/-- The two merged physical source calls (`MergedFfiSourceFunctions`):
they are only ever invoked from inside directory-source resolution. -/
inductive MergedFfiFn where
  | pactffiVerifierAddFileSource
  | pactffiVerifierUrlSource
deriving DecidableEq, Fintype, Repr

/-- Every ffi function name that appears in the mapper: the nine
ordered ones plus the two merged source functions. -/
inductive FfiFnName where
  | required (f : RequiredFfiFn)
  | merged (f : MergedFfiFn)
deriving DecidableEq, Repr

/-- `orderOfExecution` object of `arguments.ts` (lines 27-37): the
execution position assigned to each required ffi function. -/
def orderOfExecution : RequiredFfiFn → Nat
  | .pactffiVerifierSetProviderInfo => 1
  | .pactffiVerifierSetFilterInfo => 2
  | .pactffiVerifierSetProviderState => 3
  | .pactffiVerifierSetVerificationOptions => 4
  | .pactffiVerifierSetPublishOptions => 5
  | .pactffiVerifierSetConsumerFilters => 6
  | .pactffiVerifierAddCustomHeader => 7
  | .pactffiVerifierAddDirectorySource => 8
  | .pactffiVerifierBrokerSourceWithSelectors => 9

/-- The order lookup extended to every ffi function name: the
`orderOfExecution` object has no key for the merged source functions
(they are removed by `Omit` in `RequiredFfiVerificationFunctions`), so
the lookup yields `none` for them. -/
def orderOfExecutionFull : FfiFnName → Option Nat
  | .required f => some (orderOfExecution f)
  | .merged _ => none

/-! ## JavaScript semantics helpers -/

/-- JavaScript truthiness of an optional string: `undefined` and the
empty string are falsy, every other string is truthy. -/
def truthyS : Option String → Bool
  | none => false
  | some s => s != ""

/-- JavaScript truthiness of an optional number: `undefined` and `0`
are falsy. -/
def truthyN : Option Nat → Bool
  | none => false
  | some n => n != 0

/-- The JavaScript expression `a || b` where `a` is an optional string
and `b` a string default: yields `b` when `a` is `undefined` or `""`. -/
def orStr (a : Option String) (b : String) : String :=
  match a with
  | some s => if s != "" then s else b
  | none => b

/-- The JavaScript expression `a || b` on two optional strings, the
result still possibly `undefined` (no final string default). -/
def jsOrOpt (a b : Option String) : Option String :=
  if truthyS a then a else b

/-- The JavaScript expression `a || b` where `a` is an optional number
and `b` a numeric default (used for `opts.timeout || DEFAULT_TIMEOUT`). -/
def orNat (a : Option Nat) (b : Nat) : Nat :=
  match a with
  | some n => if n != 0 then n else b
  | none => b

/-- JavaScript `String.prototype.split` with a single-character
separator, on the character list: splits at every occurrence of the
separator; always returns at least one (possibly empty) piece. -/
def jsSplitChars (sep : Char) : List Char → List (List Char)
  | [] => [[]]
  | c :: cs =>
      if c = sep then [] :: jsSplitChars sep cs
      else (c :: (jsSplitChars sep cs).headD []) :: (jsSplitChars sep cs).tail

/-- JavaScript `s.split(sep)` for a single-character separator. -/
def jsSplit (s : String) (sep : Char) : List String :=
  (jsSplitChars sep s.data).map String.mk

/-- Whether `pat` occurs as a contiguous substring of the list. -/
def startsWithChars : List Char → List Char → Bool
  | [], _ => true
  | _ :: _, [] => false
  | p :: ps, c :: cs => p == c && startsWithChars ps cs

/-- Substring search used to model an unanchored regex test. -/
def hasSubChars (pat : List Char) : List Char → Bool
  | [] => startsWithChars pat []
  | c :: cs => startsWithChars pat (c :: cs) || hasSubChars pat cs

/-- The unanchored regex test `/https?:/.test(s)` from
`pactffiVerifierAddDirectorySource`: true iff `s` contains `http:` or
`https:` anywhere, not only as a leading scheme. -/
def regexHttpTest (s : String) : Bool :=
  hasSubChars "http:".data s.data || hasSubChars "https:".data s.data

/-- A single-quote character as a string (used in the directory-source
error message). -/
def squote : String := String.singleton (Char.ofNat 39)

/-- `parseInt(s, 10)`: parses the leading decimal digits of `s`;
`none` models the `NaN` result on an empty or non-numeric string (the
only inputs it receives here are WHATWG URL ports, i.e. digit strings
or `""`). -/
def parseIntBase10 (s : String) : Option Nat :=
  let ds := s.data.takeWhile Char.isDigit
  if ds.isEmpty then none
  else some (ds.foldl (fun n c => 10 * n + (c.toNat - 48)) 0)

/-! ## Data model: options, environment, external-world oracles -/

/-- `customProviderHeaders` is either an array of `"Name: Value"`
strings or a key-to-value record (`Object.entries` order modelled as
the pair list order). -/
inductive CustomProviderHeaders where
  | arr (items : List String)
  | map (pairs : List (String × String))
deriving DecidableEq, Repr

/-- One consumer-version-selector object; `JSON.stringify` on the
object is modelled as reading its canonical serialization `json`. -/
structure ConsumerVersionSelector where
  json : String
deriving DecidableEq, Repr

/-- `objArrayToStringArray` of `arguments.ts`: serializes each
selector object to its canonical string form. -/
def objArrayToStringArray (obj : List ConsumerVersionSelector) : List String :=
  obj.map ConsumerVersionSelector.json

/-- The fields of `InternalPactVerifierOptions` consumed by the
argument mapper. `none` models an absent (`undefined`) field. -/
structure InternalPactVerifierOptions where
  providerBaseUrl : String := ""
  provider : Option String := none
  customProviderHeaders : Option CustomProviderHeaders := none
  pactUrls : Option (List String) := none
  pactBrokerUrl : Option String := none
  pactBrokerUsername : Option String := none
  pactBrokerPassword : Option String := none
  pactBrokerToken : Option String := none
  consumerFilters : Option (List String) := none
  providerStatesSetupUrl : Option String := none
  publishVerificationResult : Bool := false
  providerVersion : Option String := none
  buildUrl : Option String := none
  providerVersionTags : Option (List String) := none
  providerVersionBranch : Option String := none
  providerBranch : Option String := none
  enablePending : Bool := false
  includeWipPactsSince : Option String := none
  consumerVersionSelectors : Option (List ConsumerVersionSelector) := none
  consumerVersionTags : Option (List String) := none
  disableSslVerification : Bool := false
  timeout : Option Nat := none
deriving Repr

/-- The process-environment variables the mapper reads; `none` models
an unset variable, `some ""` a variable set to the empty string. -/
structure EnvVars where
  PACT_BROKER_BASE_URL : Option String := none
  PACT_BROKER_USERNAME : Option String := none
  PACT_BROKER_PASSWORD : Option String := none
  PACT_BROKER_TOKEN : Option String := none
  PACT_BROKER_PUBLISH_VERIFICATION_RESULTS : Option String := none
  PACT_DESCRIPTION : Option String := none
  PACT_PROVIDER_STATE : Option String := none
  PACT_PROVIDER_NO_STATE : Option String := none
deriving DecidableEq, Repr

/-- The observable pieces of a WHATWG `URL` object used by the mapper:
`protocol` keeps its trailing colon (e.g. `"http:"`), `port` is a
string (empty for a default port). -/
structure UrlRecord where
  protocol : String
  hostname : String
  port : String
  pathname : String
deriving DecidableEq, Repr

/-- What `fs.lstatSync` reports about an existing path. `other` covers
paths that are neither directory, regular file nor symlink (sockets,
FIFOs, devices). -/
inductive FileKind where
  | directory
  | file
  | symlink
  | other
deriving DecidableEq, Repr

/-- Oracles for the external collaborators of the mapper:
* `legacyProtocol s` is `url.parse(s).protocol` (`none` models `null`),
* `newURL s` is `new URL(s)` (`none` models a thrown `TypeError`),
* `lstat s` is `fs.lstatSync(s)` (`none` models a throw),
* `env` is the process environment. -/
structure World where
  legacyProtocol : String → Option String
  newURL : String → Option UrlRecord
  lstat : String → Option FileKind
  env : EnvVars := {}

/-- The ffi invocations the mapper can issue against the opaque native
engine, with the arguments it passes (the session handle omitted: it
is the same opaque value in every call). -/
inductive FfiCall where
  | setProviderInfo (name scheme host : String) (port : Option Nat) (path : String)
  | setFilterInfo (description state : String) (noState : Bool)
  | setProviderState (url : String) (teardown stateChange : Bool)
  | setVerificationOptions (disableSslVerification : Bool) (timeoutMs : Nat)
  | setPublishOptions (providerVersion buildUrl : String)
      (providerVersionTags : List String) (providerVersionBranch : String)
  | setConsumerFilters (filters : List String)
  | addCustomHeader (name value : String)
  | addDirectorySource (dir : String)
  | addFileSource (file : String)
  | urlSource (url username password token : String)
  | brokerSourceWithSelectors (url username password token : String)
      (enablePending : Bool) (includeWipPactsSince : String)
      (providerVersionTags : List String) (providerVersionBranch : String)
      (consumerVersionSelectors consumerVersionTags : List String)
deriving DecidableEq, Repr

/-- The observable result of one descriptor's `validateAndExecute`:
the returned `{status, messages?}` record (an absent `messages` field
is `[]`) plus the ffi calls issued, in invocation order. -/
structure VerifyResult where
  status : FnValidationStatus
  messages : List String := []
  calls : List FfiCall := []
deriving DecidableEq, Repr

/-! ## Descriptors (`ffiFnMapping` of `arguments.ts`) -/

def DEFAULT_TIMEOUT : Nat := 30000

/-- The invalid-custom-header message pushed for an entry whose
colon-split does not have exactly two parts. -/
def invalidHeaderMessage (item : String) : String :=
  item ++ " is not a valid custom header. Must be in the format "
    ++ squote ++ "Header-Name: Value" ++ squote

/-- One iteration of the `forEach` in the custom-header descriptor:
split the entry on `:`; with exactly two parts issue the ffi call,
otherwise push the invalid-header message. -/
def customHeaderStep (acc : List String × List FfiCall) (item : String) :
    List String × List FfiCall :=
  let parts := jsSplit item ':'
  if parts.length ≠ 2 then
    (acc.1 ++ [invalidHeaderMessage item], acc.2)
  else
    (acc.1, acc.2 ++ [FfiCall.addCustomHeader (parts.getD 0 "") (parts.getD 1 "")])

/-- `ffiFnMapping.pactffiVerifierAddCustomHeader.validateAndExecute`.
Note that the FAIL return in the source is `{ status: FAIL }` without
the locally collected `messages` array, so the returned `messages`
list is empty even on failure. -/
def pactffiVerifierAddCustomHeader (options : InternalPactVerifierOptions) :
    VerifyResult :=
  match options.customProviderHeaders with
  | some (.arr items) =>
      let r := items.foldl customHeaderStep ([], [])
      if r.1.length > 0 then
        { status := .FAIL, messages := [], calls := r.2 }
      else
        { status := .SUCCESS, messages := [], calls := r.2 }
  | some (.map pairs) =>
      { status := .SUCCESS, messages := [],
        calls := pairs.map fun kv => FfiCall.addCustomHeader kv.1 kv.2 }
  | none => { status := .IGNORE }

/-- `options.pactBrokerUsername || process.env.PACT_BROKER_USERNAME || ''`,
the resolved username passed to both `pactffiVerifierUrlSource` and
`pactffiVerifierBrokerSourceWithSelectors`. -/
def resolvedBrokerUsername (w : World) (o : InternalPactVerifierOptions) : String :=
  orStr o.pactBrokerUsername (orStr w.env.PACT_BROKER_USERNAME "")

/-- `options.pactBrokerPassword || process.env.PACT_BROKER_PASSWORD || ''`. -/
def resolvedBrokerPassword (w : World) (o : InternalPactVerifierOptions) : String :=
  orStr o.pactBrokerPassword (orStr w.env.PACT_BROKER_PASSWORD "")

/-- `options.pactBrokerToken || process.env.PACT_BROKER_TOKEN || ''`. -/
def resolvedBrokerToken (w : World) (o : InternalPactVerifierOptions) : String :=
  orStr o.pactBrokerToken (orStr w.env.PACT_BROKER_TOKEN "")

/-- The body of the `forEach` in
`ffiFnMapping.pactffiVerifierAddDirectorySource.validateAndExecute`
for one pact-source location: the messages it pushes and the ffi
calls it issues.  Branches, in source order:
* `/https?:/.test(url.parse(file).protocol || '')` selects the URL arm;
  there `new URL(file)` throwing pushes the invalid-URL message, a
  parse with a truthy (non-empty) `hostname` issues a `urlSource`
  call, and a parse with an empty `hostname` does nothing at all;
* otherwise `fs.lstatSync` classifies: directory, file-or-symlink,
  anything else silently ignored, and a throw pushes the
  does-not-exist message. -/
def addOnePactUrl (w : World) (o : InternalPactVerifierOptions) (file : String) :
    List String × List FfiCall :=
  if regexHttpTest (orStr (w.legacyProtocol file) "") then
    match w.newURL file with
    | some u =>
        if u.hostname != "" then
          ([], [FfiCall.urlSource file (resolvedBrokerUsername w o)
            (resolvedBrokerPassword w o) (resolvedBrokerToken w o)])
        else ([], [])
    | none => ([file ++ " is not a valid URL"], [])
  else
    match w.lstat file with
    | some .directory => ([], [FfiCall.addDirectorySource file])
    | some .file => ([], [FfiCall.addFileSource file])
    | some .symlink => ([], [FfiCall.addFileSource file])
    | some .other => ([], [])
    | none =>
        ([squote ++ file ++ squote ++ " does not exist, or is not a file or directory"], [])

/-- `ffiFnMapping.pactffiVerifierAddDirectorySource.validateAndExecute`:
iterate all configured pact-source locations, accumulate messages and
calls, then FAIL (with the messages) iff any message was pushed. -/
def pactffiVerifierAddDirectorySource (w : World) (o : InternalPactVerifierOptions) :
    VerifyResult :=
  match o.pactUrls with
  | some files =>
      let acc := files.foldl
        (fun acc file =>
          let r := addOnePactUrl w o file
          (acc.1 ++ r.1, acc.2 ++ r.2))
        (([] : List String), ([] : List FfiCall))
      if acc.1.length > 0 then { status := .FAIL, messages := acc.1, calls := acc.2 }
      else { status := .SUCCESS, messages := [], calls := acc.2 }
  | none => { status := .IGNORE }

/-- `ffiFnMapping.pactffiVerifierBrokerSourceWithSelectors.validateAndExecute`:
applicable when `opts.pactBrokerUrl || process.env.PACT_BROKER_BASE_URL`
and `opts.provider` are both truthy; passes resolved credentials and
defaulted selector fields. -/
def pactffiVerifierBrokerSourceWithSelectors (w : World)
    (o : InternalPactVerifierOptions) : VerifyResult :=
  if truthyS (jsOrOpt o.pactBrokerUrl w.env.PACT_BROKER_BASE_URL)
      && truthyS o.provider then
    { status := .SUCCESS, messages := [],
      calls := [FfiCall.brokerSourceWithSelectors
        (orStr (jsOrOpt o.pactBrokerUrl w.env.PACT_BROKER_BASE_URL) "")
        (resolvedBrokerUsername w o) (resolvedBrokerPassword w o)
        (resolvedBrokerToken w o)
        o.enablePending
        (orStr o.includeWipPactsSince "")
        (o.providerVersionTags.getD [])
        (orStr o.providerVersionBranch (orStr o.providerBranch ""))
        (match o.consumerVersionSelectors with
         | some sel => objArrayToStringArray sel
         | none => [])
        (o.consumerVersionTags.getD [])] }
  else { status := .IGNORE }

/-- `ffiFnMapping.pactffiVerifierSetConsumerFilters.validateAndExecute`:
`options.consumerFilters && options.consumerFilters.length > 0`. -/
def pactffiVerifierSetConsumerFilters (o : InternalPactVerifierOptions) :
    VerifyResult :=
  match o.consumerFilters with
  | some filters =>
      if filters.length > 0 then
        { status := .SUCCESS, messages := [],
          calls := [FfiCall.setConsumerFilters filters] }
      else { status := .IGNORE }
  | none => { status := .IGNORE }

/-- `ffiFnMapping.pactffiVerifierSetFilterInfo.validateAndExecute`:
applicable when any of the three filter environment variables is
truthy; the no-state flag is the truthiness of `PACT_PROVIDER_NO_STATE`. -/
def pactffiVerifierSetFilterInfo (w : World) : VerifyResult :=
  if truthyS w.env.PACT_DESCRIPTION || truthyS w.env.PACT_PROVIDER_STATE
      || truthyS w.env.PACT_PROVIDER_NO_STATE then
    { status := .SUCCESS, messages := [],
      calls := [FfiCall.setFilterInfo (orStr w.env.PACT_DESCRIPTION "")
        (orStr w.env.PACT_PROVIDER_STATE "")
        (truthyS w.env.PACT_PROVIDER_NO_STATE)] }
  else { status := .IGNORE }

/-- `ffiFnMapping.pactffiVerifierSetProviderInfo.validateAndExecute`:
`new URL(options.providerBaseUrl)` is not wrapped in any try/catch, so
a parse failure (`none`) propagates out of the descriptor, modelled as
an overall `none`.  On success the single call passes the scheme
(`uri.protocol.split(':')[0]`), hostname, `parseInt(uri.port, 10)` and
pathname. -/
def pactffiVerifierSetProviderInfo (w : World) (o : InternalPactVerifierOptions) :
    Option VerifyResult :=
  match w.newURL o.providerBaseUrl with
  | none => none
  | some uri =>
      some { status := .SUCCESS, messages := [],
             calls := [FfiCall.setProviderInfo (orStr o.provider "")
               ((jsSplit uri.protocol ':').getD 0 "") uri.hostname
               (parseIntBase10 uri.port) uri.pathname] }

/-- `ffiFnMapping.pactffiVerifierSetProviderState.validateAndExecute`:
applicable when a state-setup URL is truthy; both boolean flags are
fixed `true`. -/
def pactffiVerifierSetProviderState (o : InternalPactVerifierOptions) :
    VerifyResult :=
  if truthyS o.providerStatesSetupUrl then
    { status := .SUCCESS, messages := [],
      calls := [FfiCall.setProviderState (orStr o.providerStatesSetupUrl "") true true] }
  else { status := .IGNORE }

/-- `ffiFnMapping.pactffiVerifierSetPublishOptions.validateAndExecute`:
applicable when `(options.publishVerificationResult ||
process.env.PACT_BROKER_PUBLISH_VERIFICATION_RESULTS) &&
options.providerVersion`; in the applicable branch
`options.providerVersion` is truthy, so `orStr o.providerVersion ""`
is exactly its value. -/
def pactffiVerifierSetPublishOptions (w : World) (o : InternalPactVerifierOptions) :
    VerifyResult :=
  if (o.publishVerificationResult
        || truthyS w.env.PACT_BROKER_PUBLISH_VERIFICATION_RESULTS)
      && truthyS o.providerVersion then
    { status := .SUCCESS, messages := [],
      calls := [FfiCall.setPublishOptions (orStr o.providerVersion "")
        (orStr o.buildUrl "") (o.providerVersionTags.getD [])
        (orStr o.providerVersionBranch (orStr o.providerBranch ""))] }
  else { status := .IGNORE }

/-- `ffiFnMapping.pactffiVerifierSetVerificationOptions.validateAndExecute`:
applicable when SSL verification is disabled or a (truthy) timeout is
given; `opts.timeout || DEFAULT_TIMEOUT` supplies the default. -/
def pactffiVerifierSetVerificationOptions (o : InternalPactVerifierOptions) :
    VerifyResult :=
  if o.disableSslVerification || truthyN o.timeout then
    { status := .SUCCESS, messages := [],
      calls := [FfiCall.setVerificationOptions o.disableSslVerification
        (orNat o.timeout DEFAULT_TIMEOUT)] }
  else { status := .IGNORE }

/-! ## Claim-level vocabulary for the directory-source classifier -/

/-- A pact-source location whose classification throws: either the
regex test selects the URL arm and `new URL` throws, or the
filesystem arm is taken and `fs.lstatSync` throws.  Exactly these
locations push a message in `addOnePactUrl`. -/
def classifyThrows (w : World) (file : String) : Bool :=
  if regexHttpTest (orStr (w.legacyProtocol file) "") then (w.newURL file).isNone
  else (w.lstat file).isNone

/-- The message pushed for a location whose classification throws. -/
def classifyErrMessage (w : World) (file : String) : String :=
  if regexHttpTest (orStr (w.legacyProtocol file) "") then
    file ++ " is not a valid URL"
  else
    squote ++ file ++ squote ++ " does not exist, or is not a file or directory"

/-! ## Mock-service process lifecycle (`server.js`) -/

def CHECKTIME : Nat := 500
def RETRY_AMOUNT : Nat := 60
def PROCESS_TIMEOUT : Nat := 30000

/-- How the polling promise of `waitForServerUp` / `waitForServerDown`
settles: the settling attempt number is recorded. -/
inductive PollOutcome where
  | resolved (attempts : Nat)
  | rejected (attempts : Nat)
deriving DecidableEq, Repr

/-- One execution of `check()` in `waitForServerUp`, with `amount`
checks already performed: `amount++`; with a port configured and a
successful health call the deferred resolves, otherwise `retry()`
rejects once `amount >= RETRY_AMOUNT` and else schedules the next
check after `CHECKTIME` ms.  `healthy k` is the oracle for the health
call of attempt `k` succeeding (HTTP 200). -/
def waitForServerUpAux (hasPort : Bool) (healthy : Nat → Bool) (amount : Nat) :
    PollOutcome :=
  if hasPort && healthy (amount + 1) then .resolved (amount + 1)
  else if RETRY_AMOUNT ≤ amount + 1 then .rejected (amount + 1)
  else waitForServerUpAux hasPort healthy (amount + 1)
termination_by RETRY_AMOUNT - amount
decreasing_by simp_wf; omega

/-- `waitForServerUp(options)`: polling starts with a synchronous
first `check()` and `amount = 0`. -/
def waitForServerUp (hasPort : Bool) (healthy : Nat → Bool) : PollOutcome :=
  waitForServerUpAux hasPort healthy 0

/-- One execution of `check()` in `waitForServerDown`: `amount++`;
without a port the deferred resolves at once; with a port, a failing
health call (server gone) resolves, a successful one rejects once
`amount >= RETRY_AMOUNT` and otherwise schedules the next check after
`CHECKTIME` ms.  `stillUp k` is the oracle for the health call of
attempt `k` succeeding. -/
def waitForServerDownAux (hasPort : Bool) (stillUp : Nat → Bool) (amount : Nat) :
    PollOutcome :=
  if hasPort then
    if stillUp (amount + 1) then
      if RETRY_AMOUNT ≤ amount + 1 then .rejected (amount + 1)
      else waitForServerDownAux hasPort stillUp (amount + 1)
    else .resolved (amount + 1)
  else .resolved (amount + 1)
termination_by RETRY_AMOUNT - amount
decreasing_by simp_wf; omega

/-- `waitForServerDown(options)`. -/
def waitForServerDown (hasPort : Bool) (stillUp : Nat → Bool) : PollOutcome :=
  waitForServerDownAux hasPort stillUp 0

/-- The wall-clock offset, in milliseconds, of polling attempt `k`
(1-indexed): the first `check()` runs synchronously and every retry
schedules the next check `CHECKTIME` ms later. -/
def checkTimeOfAttempt (k : Nat) : Nat := (k - 1) * CHECKTIME

/-- The overall timeout `Server.prototype.start` puts on the
`waitForServerUp` promise: `.timeout(PROCESS_TIMEOUT, ...)`. -/
def startTimeoutMs : Nat := PROCESS_TIMEOUT

/-- The overall timeout `Server.prototype.stop` puts on the
`waitForServerDown` promise. -/
def stopTimeoutMs : Nat := PROCESS_TIMEOUT

/-- The kill target of `Server.prototype.stop` on POSIX platforms
(where the child was spawned with `detached: true`):
`process.kill(-pid, 'SIGINT')` signals the process group `-pid`. -/
def stopSignalTargetPosix (pid : Int) : Int := -pid

/-! ## Mock-service factory (`module.exports` of `server.js`) -/

/-- The option bag accepted by the mock-server factory function. -/
structure ServerFactoryOptions where
  port : Option Int := none
  host : Option String := none
  dir : Option String := none
  ssl : Bool := false
  sslcert : Option String := none
  sslkey : Option String := none
  cors : Bool := false
  log : Option String := none
  spec : Option Int := none
  consumer : Option String := none
  provider : Option String := none
deriving Repr

/-- The state stored by the `Server` constructor (its `_options`). -/
structure ServerRecord where
  port : Option Int
  host : String
  dir : String
  ssl : Bool
  sslcert : Option String
  sslkey : Option String
  cors : Bool
  log : Option String
  spec : Option Int
  consumer : Option String
  provider : Option String
deriving Repr

/-- Filesystem and path oracles for the factory:
* `statOk p` is whether `fs.statSync(path.normalize(p))` succeeds,
* `cwd` is `process.cwd()`,
* `resolveDir d` is `path.resolve(d)`. -/
structure FsWorld where
  statOk : String → Bool
  cwd : String := "/"
  resolveDir : String → String := id

/-- `portOk` collects the `checkTypes` port assertions that throw for
an out-of-range port (number/integer are type-level and vacuous in the
typed embedding): positive and in range 0..65535. -/
def portOk (o : ServerFactoryOptions) : Bool :=
  match o.port with
  | some p => decide (0 < p) && decide (p ≤ 65535)
  | none => true

/-- The `checkTypes` assertions on `options.spec`: a supplied spec
version must be a positive integer. -/
def specOk (o : ServerFactoryOptions) : Bool :=
  match o.spec with
  | some sp => decide (0 < sp)
  | none => true

/-- The mock-server factory `module.exports = function (options)` of
`server.js`, as the sequence of its throwing checks.  In source order:
defaults for ssl/cors/dir/host, the port assertions, the ssl
certificate/key pairing check, existence checks of the supplied cert
and key paths (a failing `fs.statSync(path.normalize(p))` becomes the
thrown `Error`, whose message carries the raw path), forcing `ssl` to
`true` when both are supplied, the `spec` assertions, `dir`/`log`
directory creation (never throws: a failed probe falls into `mkdirp`),
and finally `new Server(...)`.  `checkTypes` type assertions on
booleans/strings are vacuous in the typed embedding. -/
def serverFactory (fs : FsWorld) (o : ServerFactoryOptions) :
    Except String ServerRecord :=
  if !portOk o then
    .error "checkTypes assertion failed: port must be a positive integer between 0 and 65535"
  else if (truthyS o.sslcert && !truthyS o.sslkey)
      || (!truthyS o.sslcert && truthyS o.sslkey) then
    .error "Custom ssl certificate and key must be specified together."
  else if truthyS o.sslcert && !fs.statOk (orStr o.sslcert "") then
    .error ("Custom ssl certificate not found at path: " ++ orStr o.sslcert "")
  else if truthyS o.sslkey && !fs.statOk (orStr o.sslkey "") then
    .error ("Custom ssl key not found at path: " ++ orStr o.sslkey "")
  else if !specOk o then
    .error "checkTypes assertion failed: spec must be a positive integer"
  else
    .ok { port := o.port, host := orStr o.host "localhost",
          dir := (match o.dir with
                  | some d => fs.resolveDir d
                  | none => fs.cwd),
          ssl := if truthyS o.sslcert && truthyS o.sslkey then true else o.ssl,
          sslcert := o.sslcert, sslkey := o.sslkey, cors := o.cors,
          log := o.log, spec := o.spec, consumer := o.consumer,
          provider := o.provider }

/-! ## Concrete oracle worlds used as test vectors -/

/-- A world in which every oracle reports absence: no parseable
protocol, `new URL` always throws, `fs.lstatSync` always throws, and
the environment is empty. -/
def worldEmpty : World where
  legacyProtocol := fun _ => none
  newURL := fun _ => none
  lstat := fun _ => none

/-- A world recording the real Node behavior on the location
`"xhttp:foo"`: `url.parse("xhttp:foo").protocol` is `"xhttp:"` (which
the unanchored `/https?:/` test matches, since it contains `http:`),
`new URL("xhttp:foo")` succeeds with an empty `hostname` (a
non-special scheme with an opaque path), and — for the coincidence the
claim speaks about — a directory of that very name exists on disk. -/
def worldXhttp : World where
  legacyProtocol := fun s => if s = "xhttp:foo" then some "xhttp:" else none
  newURL := fun s =>
    if s = "xhttp:foo" then
      some { protocol := "xhttp:", hostname := "", port := "", pathname := "foo" }
    else none
  lstat := fun s => if s = "xhttp:foo" then some .directory else none

/-- Two worlds that agree on both URL oracles for
`"http://host/x"` but disagree completely on the filesystem: used to
show the URL arm never consults `fs.lstatSync`. -/
def worldHttpDir : World where
  legacyProtocol := fun s => if s = "http://host/x" then some "http:" else none
  newURL := fun s =>
    if s = "http://host/x" then
      some { protocol := "http:", hostname := "host", port := "", pathname := "/x" }
    else none
  lstat := fun _ => some .directory

/-- See `worldHttpDir`: same URL oracles, `fs.lstatSync` always throws. -/
def worldHttpNoFs : World where
  legacyProtocol := fun s => if s = "http://host/x" then some "http:" else none
  newURL := fun s =>
    if s = "http://host/x" then
      some { protocol := "http:", hostname := "host", port := "", pathname := "/x" }
    else none
  lstat := fun _ => none

/-- A world with a path that exists but is neither a directory, a
regular file nor a symlink (a Unix socket, FIFO or device):
`url.parse("pacts.sock").protocol` is `null` and `fs.lstatSync`
succeeds reporting the special kind. -/
def worldSocket : World where
  legacyProtocol := fun _ => none
  newURL := fun _ => none
  lstat := fun s => if s = "pacts.sock" then some .other else none

/-- A world whose only URL knowledge is the provider base URL
`"http://localhost:8080/path"`. -/
def worldProvider : World where
  legacyProtocol := fun _ => none
  newURL := fun s =>
    if s = "http://localhost:8080/path" then
      some { protocol := "http:", hostname := "localhost", port := "8080",
             pathname := "/path" }
    else none
  lstat := fun _ => none

/-- A world where `PACT_BROKER_PUBLISH_VERIFICATION_RESULTS` is set
but set to the empty string (e.g. `PACT_BROKER_PUBLISH_VERIFICATION_RESULTS=`
in the invoking shell). -/
def worldPublishEnvEmpty : World where
  legacyProtocol := fun _ => none
  newURL := fun _ => none
  lstat := fun _ => none
  env := { PACT_BROKER_PUBLISH_VERIFICATION_RESULTS := some "" }

/-- A world where `PACT_BROKER_USERNAME` is set to `"env-user"`. -/
def worldEnvUser : World where
  legacyProtocol := fun _ => none
  newURL := fun _ => none
  lstat := fun _ => none
  env := { PACT_BROKER_USERNAME := some "env-user" }

/-- A filesystem where every `fs.statSync` probe succeeds. -/
def fsAllPresent : FsWorld := { statOk := fun _ => true }

/-- A filesystem where every `fs.statSync` probe throws. -/
def fsAllMissing : FsWorld := { statOk := fun _ => false }

end PactCore

namespace PactCore

/-- C1: the execution order over the nine descriptor names is a strict
total order of positive integers with no ties, ordering them exactly
provider info, filter info, provider state, verification options,
publish options, consumer filters, custom header, directory source,
broker source with selectors; the two merged physical calls (file
source, URL source) are assigned no order of their own. -/
theorem orderOfExecution_strict_total_order :
    (∀ f : RequiredFfiFn, 0 < orderOfExecution f) ∧
    (∀ f g : RequiredFfiFn, f ≠ g → orderOfExecution f ≠ orderOfExecution g) ∧
    orderOfExecution .pactffiVerifierSetProviderInfo
      < orderOfExecution .pactffiVerifierSetFilterInfo ∧
    orderOfExecution .pactffiVerifierSetFilterInfo
      < orderOfExecution .pactffiVerifierSetProviderState ∧
    orderOfExecution .pactffiVerifierSetProviderState
      < orderOfExecution .pactffiVerifierSetVerificationOptions ∧
    orderOfExecution .pactffiVerifierSetVerificationOptions
      < orderOfExecution .pactffiVerifierSetPublishOptions ∧
    orderOfExecution .pactffiVerifierSetPublishOptions
      < orderOfExecution .pactffiVerifierSetConsumerFilters ∧
    orderOfExecution .pactffiVerifierSetConsumerFilters
      < orderOfExecution .pactffiVerifierAddCustomHeader ∧
    orderOfExecution .pactffiVerifierAddCustomHeader
      < orderOfExecution .pactffiVerifierAddDirectorySource ∧
    orderOfExecution .pactffiVerifierAddDirectorySource
      < orderOfExecution .pactffiVerifierBrokerSourceWithSelectors ∧
    (∀ m : MergedFfiFn, orderOfExecutionFull (.merged m) = none) := by
  refine ⟨?_, ?_, ?_, ?_, ?_, ?_, ?_, ?_, ?_, ?_, ?_⟩ <;> decide

/-! ## Helper lemmas on the JavaScript split model -/

theorem jsSplitChars_ne_nil (sep : Char) (l : List Char) : jsSplitChars sep l ≠ [] := by
  cases l with
  | nil => simp [jsSplitChars]
  | cons c cs =>
      simp only [jsSplitChars]
      split <;> simp

theorem length_jsSplitChars (sep : Char) (l : List Char) :
    (jsSplitChars sep l).length = l.count sep + 1 := by
  induction l with
  | nil => simp [jsSplitChars]
  | cons c cs ih =>
      simp only [jsSplitChars]
      by_cases hc : c = sep
      · subst hc
        rw [if_pos rfl]
        simp only [List.length_cons, List.count_cons_self]
        omega
      · have hc' : ¬(sep = c) := fun e => hc e.symm
        cases h : jsSplitChars sep cs with
        | nil => exact absurd h (jsSplitChars_ne_nil sep cs)
        | cons p ps =>
            rw [h] at ih
            simp only [List.length_cons] at ih
            rw [if_neg hc]
            simp only [List.headD_cons, List.tail_cons, List.length_cons,
              List.count_cons]
            simp [hc, hc']
            omega

theorem jsSplitChars_of_not_mem (sep : Char) (l : List Char) (h : sep ∉ l) :
    jsSplitChars sep l = [l] := by
  induction l with
  | nil => rfl
  | cons c cs ih =>
      have hc : ¬(c = sep) := fun e => h (e ▸ List.mem_cons_self c cs)
      have hcs : sep ∉ cs := fun hm => h (List.mem_cons_of_mem _ hm)
      simp only [jsSplitChars, if_neg hc]
      rw [ih hcs]
      simp

theorem jsSplitChars_append_sep (sep : Char) (a b : List Char) (h : sep ∉ a) :
    jsSplitChars sep (a ++ sep :: b) = a :: jsSplitChars sep b := by
  induction a with
  | nil => simp [jsSplitChars]
  | cons c cs ih =>
      have hc : ¬(c = sep) := fun e => h (e ▸ List.mem_cons_self c cs)
      have hcs : sep ∉ cs := fun hm => h (List.mem_cons_of_mem _ hm)
      simp only [List.cons_append, jsSplitChars, if_neg hc, List.append_eq]
      rw [ih hcs]
      simp

theorem string_mk_data (s : String) : String.mk s.data = s := rfl

theorem length_jsSplit (s : String) (sep : Char) :
    (jsSplit s sep).length = s.data.count sep + 1 := by
  unfold jsSplit
  simp [length_jsSplitChars]

/-- Splitting `name:value` on `:` when neither side contains a colon
yields exactly the two untrimmed parts. -/
theorem jsSplit_name_value (name value : String)
    (hn : ':' ∉ name.data) (hv : ':' ∉ value.data) :
    jsSplit (name ++ ":" ++ value) ':' = [name, value] := by
  unfold jsSplit
  have hdata : (name ++ ":" ++ value).data = name.data ++ ':' :: value.data := by
    simp [String.data_append]
  rw [hdata, jsSplitChars_append_sep _ _ _ hn, jsSplitChars_of_not_mem _ _ hv]
  simp [string_mk_data]

/-! ## C2 and C3: the custom-header descriptor -/

/-- C2 (code bug evidence): on `["X-Test: 1", "BadHeader"]` the
descriptor computes the per-entry message for `BadHeader` but returns
`{ status: FAIL }` without the `messages` field, so the FAIL outcome
carries no messages; the well-formed sibling entry was still executed
and the malformed entry caused no call. -/
theorem customHeader_fail_drops_messages :
    pactffiVerifierAddCustomHeader
        { customProviderHeaders := some (.arr ["X-Test: 1", "BadHeader"]) }
      = { status := .FAIL, messages := [],
          calls := [FfiCall.addCustomHeader "X-Test" " 1"] } := rfl

/-- C3 counterexample: the entry `"X-Link: http://x"` (a value
containing a colon) is split on every colon into three parts, so the
code rejects it as malformed — no `AddCustomHeader` call is issued and
the outcome is FAIL — contradicting the claim that a first-colon split
makes it well-formed with exactly one call. -/
theorem customHeader_colon_value_rejected :
    pactffiVerifierAddCustomHeader
        { customProviderHeaders := some (.arr ["X-Link: http://x"]) }
      = { status := .FAIL, messages := [], calls := [] } := rfl

/-- C3 amended: each entry is split on every colon; an entry whose
split yields exactly two parts (exactly one colon in the whole entry)
produces exactly one `AddCustomHeader` call with the untrimmed part
before the colon as name and the untrimmed part after it as value; an
entry with any other number of colons (zero, or two or more) is
malformed: it produces the invalid-header message and no call. -/
theorem customHeader_entry_split (name value item : String)
    (hn : ':' ∉ name.data) (hv : ':' ∉ value.data)
    (hitem : item.data.count ':' ≠ 1) :
    (∀ acc, customHeaderStep acc (name ++ ":" ++ value)
        = (acc.1, acc.2 ++ [FfiCall.addCustomHeader name value])) ∧
    (∀ acc, customHeaderStep acc item
        = (acc.1 ++ [invalidHeaderMessage item], acc.2)) := by
  constructor
  · intro acc
    unfold customHeaderStep
    rw [jsSplit_name_value name value hn hv]
    simp
  · intro acc
    unfold customHeaderStep
    have hlen : (jsSplit item ':').length ≠ 2 := by
      rw [length_jsSplit]
      omega
    simp [hlen]

/-! ## C4: source-location classification -/

/-- C4 counterexample: for the location `"xhttp:foo"` the legacy
protocol `"xhttp:"` matches the unanchored `/https?:/` test (the
scheme is not `http` or `https`), `new URL` succeeds with an empty
hostname, and although a directory of that very name exists on disk
(`worldXhttp.lstat` says so), the descriptor issues no call and
pushes no message — the location does NOT fall through to filesystem
classification as the claim states (that would have produced an
`addDirectorySource "xhttp:foo"` call), and the scheme test is not
an http/https parse. -/
theorem directorySource_empty_host_no_fallthrough :
    pactffiVerifierAddDirectorySource worldXhttp { pactUrls := some ["xhttp:foo"] }
      = { status := .SUCCESS, messages := [], calls := [] } := rfl

/-- C4 amended: classification first tests whether the legacy-parsed
protocol contains `http:` or `https:` as a substring (an unanchored
regex, so schemes such as `xhttp` also match); on a match the outcome
is independent of the filesystem oracle (a protocol-matching location
is never probed as a filesystem path even if a file of that name
exists), a successful WHATWG parse with an empty host is skipped
silently (no native call, no message) rather than falling through to
filesystem classification, a parse failure yields the invalid-URL
message, and a parse with non-empty host yields exactly one URL-source
call for that location. -/
theorem classifier_url_branch (w w' : World) (o : InternalPactVerifierOptions)
    (file : String)
    (hlp : w.legacyProtocol file = w'.legacyProtocol file)
    (hnu : w.newURL file = w'.newURL file)
    (henv : w.env = w'.env)
    (hm : regexHttpTest (orStr (w.legacyProtocol file) "") = true) :
    addOnePactUrl w o file = addOnePactUrl w' o file ∧
    (∀ u, w.newURL file = some u → u.hostname = "" →
        addOnePactUrl w o file = ([], [])) ∧
    (w.newURL file = none →
        addOnePactUrl w o file = ([file ++ " is not a valid URL"], [])) ∧
    (∀ u, w.newURL file = some u → u.hostname ≠ "" →
        addOnePactUrl w o file
          = ([], [FfiCall.urlSource file (resolvedBrokerUsername w o)
              (resolvedBrokerPassword w o) (resolvedBrokerToken w o)])) := by
  have hm' : regexHttpTest (orStr (w'.legacyProtocol file) "") = true := by
    rw [← hlp]; exact hm
  refine ⟨?_, ?_, ?_, ?_⟩
  · unfold addOnePactUrl
    rw [hm, hm', hnu]
    simp only [if_true]
    cases hu : w'.newURL file with
    | none => rfl
    | some u =>
        simp only []
        unfold resolvedBrokerUsername resolvedBrokerPassword resolvedBrokerToken
        rw [henv]
  · intro u hu hhost
    unfold addOnePactUrl
    rw [hm, hu]
    simp [hhost]
  · intro hu
    unfold addOnePactUrl
    rw [hm, hu]
    simp
  · intro u hu hhost
    unfold addOnePactUrl
    rw [hm, hu]
    have : (u.hostname != "") = true := by
      simp [hhost]
    simp [this]

theorem classifier_url_branch_witness :
    addOnePactUrl worldHttpDir {} "http://host/x"
        = addOnePactUrl worldHttpNoFs {} "http://host/x" ∧
    addOnePactUrl worldHttpDir {} "http://host/x"
        = ([], [FfiCall.urlSource "http://host/x" "" "" ""]) :=
  ⟨(classifier_url_branch worldHttpDir worldHttpNoFs {} "http://host/x"
      rfl rfl rfl (by decide)).1,
   (classifier_url_branch worldHttpDir worldHttpNoFs {} "http://host/x"
      rfl rfl rfl (by decide)).2.2.2
      { protocol := "http:", hostname := "host", port := "", pathname := "/x" }
      rfl (by decide)⟩

theorem customHeader_entry_split_witness :
    customHeaderStep ([], []) ("X-Test" ++ ":" ++ " 1")
        = ([], [FfiCall.addCustomHeader "X-Test" " 1"]) ∧
    customHeaderStep ([], []) "BadHeader"
        = ([invalidHeaderMessage "BadHeader"], []) :=
  ⟨(customHeader_entry_split "X-Test" " 1" "BadHeader"
      (by decide) (by decide) (by decide)).1 ([], []),
   (customHeader_entry_split "X-Test" " 1" "BadHeader"
      (by decide) (by decide) (by decide)).2 ([], [])⟩

/-! ## C5: directory-source failure accumulation -/

/-- C5 counterexample: the location `"pacts.sock"` exists but is
neither a directory, a regular file nor a symlink, so it cannot be
resolved to any source — yet the descriptor pushes no FAIL message,
issues no call, and reports overall SUCCESS, contradicting the claim
that every unresolvable location yields exactly one FAIL message and
makes the outcome FAIL. -/
theorem directorySource_silent_on_special_file :
    pactffiVerifierAddDirectorySource worldSocket { pactUrls := some ["pacts.sock"] }
      = { status := .SUCCESS, messages := [], calls := [] } := rfl

theorem addOnePactUrl_throws (w : World) (o : InternalPactVerifierOptions)
    (file : String) (h : classifyThrows w file = true) :
    addOnePactUrl w o file = ([classifyErrMessage w file], []) := by
  unfold classifyThrows at h
  unfold addOnePactUrl classifyErrMessage
  by_cases hr : regexHttpTest (orStr (w.legacyProtocol file) "") = true
  · simp only [hr, if_true] at h ⊢
    cases hu : w.newURL file with
    | none => simp
    | some u => rw [hu] at h; simp at h
  · simp only [Bool.not_eq_true] at hr
    simp only [hr, Bool.false_eq_true, if_false] at h ⊢
    cases hl : w.lstat file with
    | none => simp
    | some k => rw [hl] at h; simp at h

theorem addOnePactUrl_no_throw (w : World) (o : InternalPactVerifierOptions)
    (file : String) (h : classifyThrows w file = false) :
    (addOnePactUrl w o file).1 = [] := by
  unfold classifyThrows at h
  unfold addOnePactUrl
  by_cases hr : regexHttpTest (orStr (w.legacyProtocol file) "") = true
  · simp only [hr, if_true] at h ⊢
    cases hu : w.newURL file with
    | none => rw [hu] at h; simp at h
    | some u =>
        by_cases hh : (u.hostname != "") = true <;> simp [hh]
  · simp only [Bool.not_eq_true] at hr
    simp only [hr, Bool.false_eq_true, if_false] at h ⊢
    cases hl : w.lstat file with
    | none => rw [hl] at h; simp at h
    | some k => cases k <;> simp

theorem directorySource_messages_filterMap (w : World)
    (o : InternalPactVerifierOptions) (files : List String) :
    (files.map fun f => (addOnePactUrl w o f).1).flatten
      = files.filterMap (fun f =>
          if classifyThrows w f then some (classifyErrMessage w f) else none) := by
  induction files with
  | nil => simp
  | cons f fs ih =>
      simp only [List.map_cons, List.flatten_cons, List.filterMap_cons]
      by_cases hf : classifyThrows w f = true
      · rw [addOnePactUrl_throws w o f hf]
        simp [hf, ih]
      · have hf' : classifyThrows w f = false := by simpa using hf
        rw [addOnePactUrl_no_throw w o f hf']
        simp [hf', ih]

theorem directorySource_foldl (w : World) (o : InternalPactVerifierOptions)
    (files : List String) (m : List String) (c : List FfiCall) :
    files.foldl (fun acc file =>
        let r := addOnePactUrl w o file
        (acc.1 ++ r.1, acc.2 ++ r.2)) (m, c)
      = (m ++ (files.map fun f => (addOnePactUrl w o f).1).flatten,
         c ++ (files.map fun f => (addOnePactUrl w o f).2).flatten) := by
  induction files generalizing m c with
  | nil => simp
  | cons f fs ih => simp [ih]

theorem filterMap_throws_ne_nil (w : World) (files : List String) :
    (files.filterMap fun file =>
        if classifyThrows w file then some (classifyErrMessage w file) else none) ≠ []
      ↔ ∃ file ∈ files, classifyThrows w file = true := by
  rw [Ne, List.filterMap_eq_nil_iff]
  constructor
  · intro hforall
    by_contra hex
    push_neg at hex
    apply hforall
    intro f hf
    have hft := hex f hf
    simp only [Bool.not_eq_true] at hft
    simp [hft]
  · rintro ⟨f, hf, hthrow⟩ hall
    have := hall f hf
    simp [hthrow] at this


/-- C5 amended: for every configured pact-source list, each location
whose classification throws (a matched protocol whose URL constructor
throws, or a failing filesystem probe) contributes exactly one FAIL
message containing its literal text and no native call; locations that
classify successfully contribute no message; remaining locations are
always still processed (the messages are exactly the per-location
messages in order, the calls the per-location calls in order); and the
overall outcome is FAIL iff at least one location threw.  A location
that probes successfully but is neither directory, file nor symlink,
or a matched-protocol URL with empty host, is skipped silently. -/
theorem directorySource_fail_accumulation (w : World)
    (o : InternalPactVerifierOptions) (files : List String)
    (h : o.pactUrls = some files) :
    ((pactffiVerifierAddDirectorySource w o).status = .FAIL
        ↔ ∃ file ∈ files, classifyThrows w file = true) ∧
    (pactffiVerifierAddDirectorySource w o).messages
      = files.filterMap (fun file =>
          if classifyThrows w file then some (classifyErrMessage w file) else none) ∧
    (pactffiVerifierAddDirectorySource w o).calls
      = (files.map fun file => (addOnePactUrl w o file).2).flatten ∧
    (∀ file, classifyThrows w file = true →
        addOnePactUrl w o file = ([classifyErrMessage w file], [])) ∧
    (∀ file, ∃ pre post, (classifyErrMessage w file).data
        = pre ++ file.data ++ post) := by
  have hmsg : ∀ file, ∃ pre post, (classifyErrMessage w file).data
      = pre ++ file.data ++ post := by
    intro file
    unfold classifyErrMessage
    by_cases hr : regexHttpTest (orStr (w.legacyProtocol file) "") = true
    · exact ⟨[], " is not a valid URL".data, by simp [hr, String.data_append]⟩
    · refine ⟨squote.data,
        (squote ++ " does not exist, or is not a file or directory").data, ?_⟩
      simp [hr, String.data_append]
  unfold pactffiVerifierAddDirectorySource
  rw [h]
  simp only []
  rw [directorySource_foldl]
  simp only [List.nil_append]
  rw [directorySource_messages_filterMap]
  by_cases hM : (files.filterMap fun file =>
      if classifyThrows w file then some (classifyErrMessage w file) else none).length > 0
  · rw [if_pos hM]
    have hne : (files.filterMap fun file =>
        if classifyThrows w file then some (classifyErrMessage w file) else none) ≠ [] := by
      intro hnil
      rw [hnil] at hM
      simp at hM
    exact ⟨⟨fun _ => (filterMap_throws_ne_nil w files).mp hne, fun _ => rfl⟩,
      rfl, rfl, fun file hf => addOnePactUrl_throws w o file hf, hmsg⟩
  · rw [if_neg hM]
    have hnil : (files.filterMap fun file =>
        if classifyThrows w file then some (classifyErrMessage w file) else none) = [] :=
      List.length_eq_zero.mp (by omega)
    refine ⟨?_, ?_, rfl, fun file hf => addOnePactUrl_throws w o file hf, hmsg⟩
    · constructor
      · intro hst
        simp at hst
      · intro hex
        exact absurd ((filterMap_throws_ne_nil w files).mpr hex) (by simp [hnil])
    · rw [hnil]

theorem directorySource_fail_accumulation_witness :
    (pactffiVerifierAddDirectorySource worldEmpty
        { pactUrls := some ["missing.json"] }).status = .FAIL :=
  (directorySource_fail_accumulation worldEmpty
      { pactUrls := some ["missing.json"] } ["missing.json"] rfl).1.mpr
    ⟨"missing.json", by simp, by decide⟩


/-! ## C6: provider-info descriptor -/

/-- C6: the provider-info descriptor is always applicable — it has no
IGNORE and no FAIL branch; whenever the provider base URL parses it
returns SUCCESS with exactly one `SetProviderInfo` call passing the
scheme (`uri.protocol.split(':')[0]`), hostname, `parseInt(uri.port, 10)`
and pathname; when the URL constructor throws, the exception
propagates out of the descriptor uncaught (overall result `none`). -/
theorem providerInfo_always_success (w : World) (o : InternalPactVerifierOptions) :
    (∀ uri, w.newURL o.providerBaseUrl = some uri →
        pactffiVerifierSetProviderInfo w o
          = some { status := .SUCCESS, messages := [],
                   calls := [FfiCall.setProviderInfo (orStr o.provider "")
                     ((jsSplit uri.protocol ':').getD 0 "") uri.hostname
                     (parseIntBase10 uri.port) uri.pathname] }) ∧
    (w.newURL o.providerBaseUrl = none →
        pactffiVerifierSetProviderInfo w o = none) ∧
    (∀ r, pactffiVerifierSetProviderInfo w o = some r →
        r.status = .SUCCESS ∧ r.messages = [] ∧ r.calls.length = 1) := by
  unfold pactffiVerifierSetProviderInfo
  refine ⟨?_, ?_, ?_⟩
  · intro uri hu
    rw [hu]
  · intro hu
    rw [hu]
  · intro r hr
    cases hu : w.newURL o.providerBaseUrl with
    | none => rw [hu] at hr; exact absurd hr (by simp)
    | some uri =>
        rw [hu] at hr
        simp only [Option.some.injEq] at hr
        rw [← hr]
        exact ⟨rfl, rfl, rfl⟩

theorem providerInfo_always_success_witness :
    pactffiVerifierSetProviderInfo worldProvider
        { providerBaseUrl := "http://localhost:8080/path" }
      = some { status := .SUCCESS, messages := [],
               calls := [FfiCall.setProviderInfo "" "http" "localhost"
                 (some 8080) "/path"] } :=
  ((providerInfo_always_success worldProvider
      { providerBaseUrl := "http://localhost:8080/path" }).1
    { protocol := "http:", hostname := "localhost", port := "8080",
      pathname := "/path" } rfl).trans (by rfl)

/-! ## C7: publish-options descriptor -/

/-- C7 counterexample: with `PACT_BROKER_PUBLISH_VERIFICATION_RESULTS`
set (to the empty string), the publish flag unset and a provider
version present, the descriptor returns IGNORE and issues no call,
although the claim (env variable set AND provider version present)
requires SUCCESS with one call. -/
theorem publishOptions_ignores_empty_env_var :
    pactffiVerifierSetPublishOptions worldPublishEnvEmpty
        { providerVersion := some "1.0.0" }
      = { status := .IGNORE, messages := [], calls := [] } := rfl

/-- C7 amended: the descriptor returns SUCCESS with exactly one
`SetPublishOptions` call iff (the publish flag is true OR the
`PACT_BROKER_PUBLISH_VERIFICATION_RESULTS` environment variable is set
to a non-empty string) AND the provider version is present and
non-empty; otherwise it returns IGNORE with no call; the version
branch argument falls back from a non-empty `providerVersionBranch`
option to the legacy `providerBranch` field and to the empty string
when both are falsy. -/
theorem publishOptions_applicability (w : World) (o : InternalPactVerifierOptions) :
    ((pactffiVerifierSetPublishOptions w o).status = .SUCCESS
        ↔ ((o.publishVerificationResult
              || truthyS w.env.PACT_BROKER_PUBLISH_VERIFICATION_RESULTS)
            && truthyS o.providerVersion) = true) ∧
    ((pactffiVerifierSetPublishOptions w o).status = .SUCCESS →
        (pactffiVerifierSetPublishOptions w o).calls
          = [FfiCall.setPublishOptions (orStr o.providerVersion "")
              (orStr o.buildUrl "") (o.providerVersionTags.getD [])
              (orStr o.providerVersionBranch (orStr o.providerBranch ""))]) ∧
    ((pactffiVerifierSetPublishOptions w o).status ≠ .SUCCESS →
        pactffiVerifierSetPublishOptions w o
          = { status := .IGNORE, messages := [], calls := [] }) ∧
    (∀ s, o.providerVersionBranch = some s → s ≠ "" →
        orStr o.providerVersionBranch (orStr o.providerBranch "") = s) ∧
    (truthyS o.providerVersionBranch = false →
        orStr o.providerVersionBranch (orStr o.providerBranch "")
          = orStr o.providerBranch "") := by
  unfold pactffiVerifierSetPublishOptions
  by_cases hc : ((o.publishVerificationResult
      || truthyS w.env.PACT_BROKER_PUBLISH_VERIFICATION_RESULTS)
      && truthyS o.providerVersion) = true
  · rw [if_pos hc]
    refine ⟨by simp [hc], fun _ => rfl, fun hst => absurd rfl hst, ?_, ?_⟩
    · intro s hs hne
      unfold orStr
      rw [hs]
      simp [hne]
    · intro hf
      unfold orStr truthyS at *
      cases hb : o.providerVersionBranch with
      | none => rfl
      | some s => rw [hb] at hf; simp at hf; simp [hf]
  · rw [if_neg hc]
    refine ⟨by simp [hc], by simp, fun _ => rfl, ?_, ?_⟩
    · intro s hs hne
      unfold orStr
      rw [hs]
      simp [hne]
    · intro hf
      unfold orStr truthyS at *
      cases hb : o.providerVersionBranch with
      | none => rfl
      | some s => rw [hb] at hf; simp at hf; simp [hf]

theorem publishOptions_applicability_witness :
    (pactffiVerifierSetPublishOptions worldEmpty
        { publishVerificationResult := true, providerVersion := some "1.0.0" }).status
      = .SUCCESS :=
  (publishOptions_applicability worldEmpty
      { publishVerificationResult := true, providerVersion := some "1.0.0" }).1.mpr
    (by decide)

/-! ## C8: explicit-option versus environment-variable precedence -/

/-- C8 counterexample: with the explicitly supplied option value
`pactBrokerUsername: ""` and the environment variable
`PACT_BROKER_USERNAME=env-user`, the native call passes `"env-user"`:
the explicitly supplied option value does not win — the `||` chain
treats the explicit empty string as absent. -/
theorem brokerSource_env_beats_explicit_empty :
    pactffiVerifierBrokerSourceWithSelectors worldEnvUser
        { provider := some "p", pactBrokerUrl := some "http://broker.example",
          pactBrokerUsername := some "" }
      = { status := .SUCCESS, messages := [],
          calls := [FfiCall.brokerSourceWithSelectors "http://broker.example"
            "env-user" "" "" false "" [] "" [] []] } := rfl

/-- C8 amended: for broker username, password and token, a non-empty
explicitly supplied option always wins over the environment variable;
an absent or empty-string option (JS-falsy) falls back to the
environment variable, and the empty string is passed when both are
falsy.  For the broker base URL the non-empty explicit option likewise
wins and the environment variable applies otherwise, but when both are
falsy the broker descriptor returns IGNORE instead of passing an empty
string; when it does execute, its single call carries exactly the
resolved username, password and token. -/
theorem broker_credential_resolution (w : World) (o : InternalPactVerifierOptions) :
    (∀ s, o.pactBrokerUsername = some s → s ≠ "" → resolvedBrokerUsername w o = s) ∧
    (truthyS o.pactBrokerUsername = false →
        resolvedBrokerUsername w o = orStr w.env.PACT_BROKER_USERNAME "") ∧
    (∀ s, o.pactBrokerPassword = some s → s ≠ "" → resolvedBrokerPassword w o = s) ∧
    (truthyS o.pactBrokerPassword = false →
        resolvedBrokerPassword w o = orStr w.env.PACT_BROKER_PASSWORD "") ∧
    (∀ s, o.pactBrokerToken = some s → s ≠ "" → resolvedBrokerToken w o = s) ∧
    (truthyS o.pactBrokerToken = false →
        resolvedBrokerToken w o = orStr w.env.PACT_BROKER_TOKEN "") ∧
    (∀ e, truthyS e = false → orStr e "" = "") ∧
    (∀ s, o.pactBrokerUrl = some s → s ≠ "" →
        jsOrOpt o.pactBrokerUrl w.env.PACT_BROKER_BASE_URL = some s) ∧
    (truthyS o.pactBrokerUrl = false →
        jsOrOpt o.pactBrokerUrl w.env.PACT_BROKER_BASE_URL
          = w.env.PACT_BROKER_BASE_URL) ∧
    (truthyS o.pactBrokerUrl = false →
        truthyS w.env.PACT_BROKER_BASE_URL = false →
        pactffiVerifierBrokerSourceWithSelectors w o
          = { status := .IGNORE, messages := [], calls := [] }) ∧
    ((pactffiVerifierBrokerSourceWithSelectors w o).status = .SUCCESS →
        ∃ url pending wip ptags branch sels ctags,
          (pactffiVerifierBrokerSourceWithSelectors w o).calls
            = [FfiCall.brokerSourceWithSelectors url
                (resolvedBrokerUsername w o) (resolvedBrokerPassword w o)
                (resolvedBrokerToken w o) pending wip ptags branch sels ctags]) := by
  have hwin : ∀ (a : Option String) (b s : String), a = some s → s ≠ "" →
      orStr a b = s := by
    intro a b s ha hs
    unfold orStr
    rw [ha]
    simp [hs]
  have hfall : ∀ (a : Option String) (b : String), truthyS a = false →
      orStr a b = b := by
    intro a b ha
    unfold truthyS at ha
    unfold orStr
    cases a with
    | none => rfl
    | some s => simp at ha; simp [ha]
  refine ⟨fun s hs hne => hwin _ _ _ hs hne,
    fun hf => hfall _ _ hf,
    fun s hs hne => hwin _ _ _ hs hne,
    fun hf => hfall _ _ hf,
    fun s hs hne => hwin _ _ _ hs hne,
    fun hf => hfall _ _ hf,
    fun e he => hfall _ _ he,
    ?_, ?_, ?_, ?_⟩
  · intro s hs hne
    unfold jsOrOpt truthyS
    rw [hs]
    simp [hne]
  · intro hf
    unfold jsOrOpt
    rw [hf]
    simp
  · intro hf hfe
    unfold pactffiVerifierBrokerSourceWithSelectors
    have : truthyS (jsOrOpt o.pactBrokerUrl w.env.PACT_BROKER_BASE_URL) = false := by
      unfold jsOrOpt
      rw [hf]
      simp [hfe]
    rw [this]
    simp
  · intro hst
    unfold pactffiVerifierBrokerSourceWithSelectors at hst ⊢
    by_cases hc : (truthyS (jsOrOpt o.pactBrokerUrl w.env.PACT_BROKER_BASE_URL)
        && truthyS o.provider) = true
    · rw [if_pos hc] at hst ⊢
      exact ⟨_, _, _, _, _, _, _, rfl⟩
    · rw [if_neg hc] at hst
      exact absurd hst (by simp)

theorem broker_credential_resolution_witness :
    resolvedBrokerUsername worldEnvUser
        { pactBrokerUsername := some "explicit-user" } = "explicit-user" :=
  (broker_credential_resolution worldEnvUser
      { pactBrokerUsername := some "explicit-user" }).1 "explicit-user" rfl
    (by decide)

theorem waitForServerUpAux_reject (hasPort : Bool) (healthy : Nat → Bool) :
    ∀ (d amount : Nat), RETRY_AMOUNT - amount = d → amount < RETRY_AMOUNT →
      (∀ k, amount < k → k ≤ RETRY_AMOUNT → (hasPort && healthy k) = false) →
      waitForServerUpAux hasPort healthy amount = .rejected RETRY_AMOUNT := by
  intro d
  induction d with
  | zero =>
      intro amount hd ha _
      omega
  | succ d ih =>
      intro amount hd ha hall
      unfold waitForServerUpAux
      rw [hall (amount + 1) (by omega) (by omega)]
      by_cases hend : RETRY_AMOUNT ≤ amount + 1
      · have heq : amount + 1 = RETRY_AMOUNT := by omega
        simp [hend, heq]
      · rw [if_neg (by simp)]
        rw [if_neg hend]
        exact ih (amount + 1) (by omega) (by omega)
          (fun k hk1 hk2 => hall k (by omega) hk2)

theorem waitForServerUpAux_resolve (hasPort : Bool) (healthy : Nat → Bool) :
    ∀ (d amount k : Nat), RETRY_AMOUNT - amount = d → amount < k →
      k ≤ RETRY_AMOUNT → (hasPort && healthy k) = true →
      (∀ j, amount < j → j < k → (hasPort && healthy j) = false) →
      waitForServerUpAux hasPort healthy amount = .resolved k := by
  intro d
  induction d with
  | zero =>
      intro amount k hd hk1 hk2 _ _
      omega
  | succ d ih =>
      intro amount k hd hk1 hk2 hk hprev
      unfold waitForServerUpAux
      by_cases hfirst : amount + 1 = k
      · rw [hfirst, hk]
        simp
      · rw [hprev (amount + 1) (by omega) (by omega)]
        rw [if_neg (by simp)]
        rw [if_neg (by omega)]
        exact ih (amount + 1) k (by omega) (by omega) hk2 hk
          (fun j hj1 hj2 => hprev j (by omega) hj2)

theorem waitForServerDownAux_reject (stillUp : Nat → Bool) :
    ∀ (d amount : Nat), RETRY_AMOUNT - amount = d → amount < RETRY_AMOUNT →
      (∀ k, amount < k → k ≤ RETRY_AMOUNT → stillUp k = true) →
      waitForServerDownAux true stillUp amount = .rejected RETRY_AMOUNT := by
  intro d
  induction d with
  | zero =>
      intro amount hd ha _
      omega
  | succ d ih =>
      intro amount hd ha hall
      unfold waitForServerDownAux
      rw [hall (amount + 1) (by omega) (by omega)]
      by_cases hend : RETRY_AMOUNT ≤ amount + 1
      · have heq : amount + 1 = RETRY_AMOUNT := by omega
        simp [hend, heq]
      · rw [if_pos rfl]
        rw [if_pos rfl]
        rw [if_neg hend]
        exact ih (amount + 1) (by omega) (by omega)
          (fun k hk1 hk2 => hall k (by omega) hk2)

/-! ## C9: mock-service polling bounds -/

/-- C9: startup and teardown polling is bounded: health checks run at
a fixed `CHECKTIME = 500` ms interval (attempt `k + 1` is scheduled
`CHECKTIME` ms after attempt `k`); the server-up wait rejects exactly
at attempt `RETRY_AMOUNT = 60` when no attempt up to the bound
succeeds, and resolves at the first successful attempt within the
bound; the server-down wait likewise rejects at attempt 60 when the
server answers every health check; `start` and `stop` each wrap their
wait in an overall `PROCESS_TIMEOUT = 30000` ms timeout; and on POSIX
`stop` signals the detached process group `-pid`, not the single child
`pid`. -/
theorem mock_service_bounded_polling :
    CHECKTIME = 500 ∧ RETRY_AMOUNT = 60 ∧
    startTimeoutMs = 30000 ∧ stopTimeoutMs = 30000 ∧
    (∀ k, 1 ≤ k → checkTimeOfAttempt (k + 1) = checkTimeOfAttempt k + CHECKTIME) ∧
    (∀ (healthy : Nat → Bool) (hasPort : Bool),
      (∀ k, 1 ≤ k → k ≤ RETRY_AMOUNT → (hasPort && healthy k) = false) →
        waitForServerUp hasPort healthy = .rejected RETRY_AMOUNT) ∧
    (∀ (healthy : Nat → Bool) (hasPort : Bool) (k : Nat),
      1 ≤ k → k ≤ RETRY_AMOUNT → (hasPort && healthy k) = true →
      (∀ j, 1 ≤ j → j < k → (hasPort && healthy j) = false) →
        waitForServerUp hasPort healthy = .resolved k) ∧
    (∀ stillUp : Nat → Bool,
      (∀ k, 1 ≤ k → k ≤ RETRY_AMOUNT → stillUp k = true) →
        waitForServerDown true stillUp = .rejected RETRY_AMOUNT) ∧
    (∀ pid : Int, stopSignalTargetPosix pid = -pid ∧
      (0 < pid → stopSignalTargetPosix pid ≠ pid)) := by
  refine ⟨rfl, rfl, rfl, rfl, ?_, ?_, ?_, ?_, ?_⟩
  · intro k hk
    unfold checkTimeOfAttempt CHECKTIME
    omega
  · intro healthy hasPort hall
    exact waitForServerUpAux_reject hasPort healthy RETRY_AMOUNT 0 rfl
      (by unfold RETRY_AMOUNT; omega) (fun k hk1 hk2 => hall k hk1 hk2)
  · intro healthy hasPort k hk1 hk2 hk hprev
    exact waitForServerUpAux_resolve hasPort healthy RETRY_AMOUNT 0 k rfl hk1 hk2 hk
      (fun j hj1 hj2 => hprev j hj1 hj2)
  · intro stillUp hall
    exact waitForServerDownAux_reject stillUp RETRY_AMOUNT 0 rfl
      (by unfold RETRY_AMOUNT; omega) (fun k hk1 hk2 => hall k hk1 hk2)
  · intro pid
    refine ⟨rfl, fun hp => ?_⟩
    unfold stopSignalTargetPosix
    omega

theorem mock_service_bounded_polling_witness :
    waitForServerUp false (fun _ => false) = .rejected RETRY_AMOUNT :=
  mock_service_bounded_polling.2.2.2.2.2.1 (fun _ => false) false
    (fun _ _ _ => rfl)



/-! ## C10: mock-server factory validation -/

/-- C10: the factory validates before constructing a `Server`: with a
valid port, supplying exactly one of `sslcert`/`sslkey` throws the
pairing error; a supplied `sslcert` whose path fails the filesystem
probe throws an error naming that path (likewise `sslkey`); and when
both are supplied and pass the probe, the constructed server has
`ssl = true` regardless of the `ssl` value the caller passed. -/
theorem serverFactory_ssl_validation (fs : FsWorld) (o : ServerFactoryOptions)
    (hport : portOk o = true) :
    (((truthyS o.sslcert && !truthyS o.sslkey)
        || (!truthyS o.sslcert && truthyS o.sslkey)) = true →
      serverFactory fs o
        = .error "Custom ssl certificate and key must be specified together.") ∧
    (∀ c, o.sslcert = some c → c ≠ "" → truthyS o.sslkey = true →
      fs.statOk c = false →
      serverFactory fs o
        = .error ("Custom ssl certificate not found at path: " ++ c)) ∧
    (∀ k, o.sslkey = some k → k ≠ "" → truthyS o.sslcert = true →
      fs.statOk (orStr o.sslcert "") = true → fs.statOk k = false →
      serverFactory fs o
        = .error ("Custom ssl key not found at path: " ++ k)) ∧
    ((truthyS o.sslcert && truthyS o.sslkey) = true →
      ∀ r, serverFactory fs o = .ok r → r.ssl = true) := by
  unfold serverFactory
  rw [hport]
  simp only [Bool.not_true, Bool.false_eq_true, if_false]
  refine ⟨?_, ?_, ?_, ?_⟩
  · intro hpair
    rw [hpair]
    simp
  · intro c hc hcne hkey hmiss
    have hcert : truthyS o.sslcert = true := by
      unfold truthyS
      rw [hc]
      simp [hcne]
    have horc : orStr o.sslcert "" = c := by
      unfold orStr
      rw [hc]
      simp [hcne]
    rw [hcert, hkey]
    simp only [Bool.not_true, Bool.and_false, Bool.false_and, Bool.or_self,
      Bool.false_eq_true, if_false]
    rw [horc, hmiss]
    simp
  · intro k hk hkne hcert hcok hmiss
    have hkey : truthyS o.sslkey = true := by
      unfold truthyS
      rw [hk]
      simp [hkne]
    have hork : orStr o.sslkey "" = k := by
      unfold orStr
      rw [hk]
      simp [hkne]
    rw [hcert, hkey, hcok]
    simp only [Bool.not_true, Bool.and_false, Bool.false_and, Bool.or_self,
      Bool.false_eq_true, if_false, Bool.and_true, Bool.not_false]
    rw [hork, hmiss]
    simp
  · intro hboth r hr
    have hcert : truthyS o.sslcert = true := by
      cases hct : truthyS o.sslcert with
      | true => rfl
      | false => rw [hct] at hboth; simp at hboth
    have hkey : truthyS o.sslkey = true := by
      cases hkt : truthyS o.sslkey with
      | true => rfl
      | false => rw [hkt] at hboth; simp at hboth
    rw [hcert, hkey] at hr
    simp only [Bool.not_true, Bool.and_false, Bool.false_and, Bool.or_self,
      Bool.false_eq_true, if_false, Bool.and_true, Bool.not_false] at hr
    by_cases hcok : fs.statOk (orStr o.sslcert "") = true
    · rw [hcok] at hr
      simp only [Bool.not_true, Bool.and_false, Bool.false_eq_true, if_false] at hr
      by_cases hkok : fs.statOk (orStr o.sslkey "") = true
      · rw [hkok] at hr
        simp only [Bool.not_true, Bool.and_false, Bool.false_eq_true, if_false] at hr
        by_cases hspec : specOk o = true
        · rw [hspec] at hr
          simp only [Bool.not_true, Bool.false_eq_true, if_false,
            Except.ok.injEq] at hr
          rw [← hr]
          simp [hcert, hkey]
        · have : specOk o = false := by
            cases h : specOk o with
            | true => exact absurd h hspec
            | false => rfl
          rw [this] at hr
          simp at hr
      · have : fs.statOk (orStr o.sslkey "") = false := by
          cases h : fs.statOk (orStr o.sslkey "") with
          | true => exact absurd h hkok
          | false => rfl
        rw [this] at hr
        simp at hr
    · have : fs.statOk (orStr o.sslcert "") = false := by
        cases h : fs.statOk (orStr o.sslcert "") with
        | true => exact absurd h hcok
        | false => rfl
      rw [this] at hr
      simp at hr

theorem serverFactory_ssl_validation_witness :
    serverFactory fsAllPresent { sslcert := some "cert.pem" }
      = .error "Custom ssl certificate and key must be specified together." :=
  (serverFactory_ssl_validation fsAllPresent { sslcert := some "cert.pem" }
      rfl).1 rfl

end PactCore
